import Mathlib

/-!
Shallow embedding of the rds-replica-monitor program (src/main.go).

Timestamps are modelled as rationals; the rational 0 plays the role of Go's
zero value `time.Time{}`, which the code uses as the "not yet set" sentinel
(real wall-clock times from `time.Now()` are never the zero value, so
theorems carry the hypothesis that sample times are strictly positive).
Go `float64` quantities (rates) are modelled as exact rationals.
-/

namespace ReplicaMonitor

/-- Mirrors the Go struct `ReplicationStats` (main.go lines 24-35).
`totalTimeElapsed` exists in the struct but the code only ever writes a
local variable of the same name, so the field itself is never updated. -/
structure ReplicationStats where
  lastSecondsBehind : Int
  lastCheckTime : ℚ
  ratePerSecond : ℚ
  estimatedTime : ℚ
  startSecondsBehind : Int
  startTime : ℚ
  totalTimeElapsed : ℚ
  averageRatePerSecond : ℚ
deriving DecidableEq, Repr

/-- The Go zero value of `ReplicationStats` (package-level `var replicationStats`). -/
def initialStats : ReplicationStats :=
  { lastSecondsBehind := 0
    lastCheckTime := 0
    ratePerSecond := 0
    estimatedTime := 0
    startSecondsBehind := 0
    startTime := 0
    totalTimeElapsed := 0
    averageRatePerSecond := 0 }

/-- Truncation toward zero, as Go's float64-to-int64 conversion performed by
`time.Duration(secondsToCatchUp)` (main.go line 197). -/
def ratTrunc (q : ℚ) : Int := if 0 ≤ q then ⌊q⌋ else ⌈q⌉

/-- The lag-trend update performed for a parsed `Seconds_Behind_Source`
sample (main.go lines 181-211): set the start anchor on the first run,
recompute the short-term rate and ETA when the interval is positive,
recompute the long-term average when time has elapsed since the anchor,
then unconditionally record the sample as the previous one. -/
def updateStats (s : ReplicationStats) (seconds : Int) (now : ℚ) : ReplicationStats :=
  -- Initialize start time and values on first run (lines 182-185)
  let s1 := if s.startTime = 0 then
      { s with startSecondsBehind := seconds, startTime := now }
    else s
  -- Short-term rate of change if we have previous data (lines 188-200)
  let s2 := if s1.lastCheckTime ≠ 0 then
      let timeDiff := now - s1.lastCheckTime
      if 0 < timeDiff then
        let rate := ((seconds - s1.lastSecondsBehind : Int) : ℚ) / timeDiff
        let s2a := { s1 with ratePerSecond := rate }
        if rate < 0 then
          { s2a with estimatedTime := now + ((ratTrunc ((seconds : ℚ) / -rate) : Int) : ℚ) }
        else s2a
      else s1
    else s1
  -- Long-term average rate (lines 202-207)
  let totalTimeElapsed := now - s2.startTime
  let s3 := if 0 < totalTimeElapsed then
      { s2 with averageRatePerSecond := ((seconds - s2.startSecondsBehind : Int) : ℚ) / totalTimeElapsed }
    else s2
  -- Update stats for next iteration (lines 210-211)
  { s3 with lastSecondsBehind := seconds, lastCheckTime := now }

/-- Feeding a sequence of `(secondsBehind, time)` samples through the update,
starting from the zero-valued package state. -/
def runSamples (samples : List (Int × ℚ)) : ReplicationStats :=
  samples.foldl (fun s p => updateStats s p.1 p.2) initialStats

/-- `chainIncr t samples` holds when the sample times are strictly
increasing, starting strictly after `t`. -/
def chainIncr : ℚ → List (Int × ℚ) → Bool
  | _, [] => true
  | t, p :: rest => decide (t < p.2) && chainIncr p.2 rest

/-- The last sample of a nonempty sample list, written `lastSample head tail`. -/
def lastSample : (Int × ℚ) → List (Int × ℚ) → (Int × ℚ)
  | p, [] => p
  | _, q :: rest => lastSample q rest

/-- The condition under which the display code prints an instant ETA
(main.go lines 236-239): the short-term rate is negative and the stored
estimate is not the zero time. -/
def instantETAshown (s : ReplicationStats) : Bool :=
  if s.ratePerSecond < 0 then (if s.estimatedTime = 0 then false else true) else false

theorem updateStats_first (l : Int) (t : ℚ) :
    updateStats initialStats l t =
      { lastSecondsBehind := l, lastCheckTime := t, ratePerSecond := 0, estimatedTime := 0,
        startSecondsBehind := l, startTime := t, totalTimeElapsed := 0,
        averageRatePerSecond := 0 } := by
  simp [updateStats, initialStats]

theorem updateStats_lastCheckTime (s : ReplicationStats) (l : Int) (t : ℚ) :
    (updateStats s l t).lastCheckTime = t := rfl

theorem updateStats_lastSecondsBehind (s : ReplicationStats) (l : Int) (t : ℚ) :
    (updateStats s l t).lastSecondsBehind = l := rfl

theorem updateStats_start_preserved (s : ReplicationStats) (l : Int) (t : ℚ)
    (h : s.startTime ≠ 0) :
    (updateStats s l t).startTime = s.startTime ∧
      (updateStats s l t).startSecondsBehind = s.startSecondsBehind := by
  simp only [updateStats, if_neg h]
  split_ifs <;> simp

theorem updateStats_avg_formula (s : ReplicationStats) (l : Int) (t : ℚ)
    (h0 : s.startTime ≠ 0) (h : s.startTime < t) :
    (updateStats s l t).averageRatePerSecond =
      ((l - s.startSecondsBehind : Int) : ℚ) / (t - s.startTime) := by
  simp only [updateStats, if_neg h0]
  have hpos : 0 < t - s.startTime := sub_pos.mpr h
  split_ifs <;> simp_all

theorem updateStats_rate_retained (s : ReplicationStats) (l : Int) (t : ℚ)
    (h : ¬ 0 < t - s.lastCheckTime) :
    (updateStats s l t).ratePerSecond = s.ratePerSecond ∧
      (updateStats s l t).estimatedTime = s.estimatedTime := by
  simp only [updateStats]
  split_ifs <;> simp_all

theorem updateStats_avg_retained (s : ReplicationStats) (l : Int) (t : ℚ)
    (h : ¬ 0 < t - (if s.startTime = 0 then t else s.startTime)) :
    (updateStats s l t).averageRatePerSecond = s.averageRatePerSecond := by
  simp only [updateStats]
  split_ifs <;> simp_all

theorem ratTrunc_nonneg (q : ℚ) (h : 0 ≤ q) : 0 ≤ ratTrunc q := by
  rw [ratTrunc, if_pos h]
  exact Int.floor_nonneg.mpr h

/-- After an update, either the short-term rate and ETA are both untouched,
or the rate was recomputed as nonnegative with the ETA untouched, or the
rate was recomputed as negative and the ETA set to now plus the truncated
catch-up time. -/
theorem updateStats_rate_eta (s : ReplicationStats) (l : Int) (t : ℚ) :
    ((updateStats s l t).ratePerSecond = s.ratePerSecond ∧
      (updateStats s l t).estimatedTime = s.estimatedTime) ∨
    (0 ≤ (updateStats s l t).ratePerSecond ∧
      (updateStats s l t).estimatedTime = s.estimatedTime) ∨
    ((updateStats s l t).ratePerSecond < 0 ∧
      (updateStats s l t).estimatedTime =
        t + ((ratTrunc ((l : ℚ) / -(updateStats s l t).ratePerSecond) : Int) : ℚ)) := by
  simp only [updateStats]
  split_ifs <;> simp_all [le_of_not_lt]

/-- The lag state keeps a positive stored ETA whenever its rate is
negative, provided samples are nonnegative and taken at positive times. -/
def EtaInv (s : ReplicationStats) : Prop :=
  s.ratePerSecond < 0 → 0 < s.estimatedTime

theorem updateStats_eta_inv (s : ReplicationStats) (l : Int) (t : ℚ)
    (hl : 0 ≤ l) (ht : 0 < t) (hInv : EtaInv s) : EtaInv (updateStats s l t) := by
  intro hr
  rcases updateStats_rate_eta s l t with ⟨h1, h2⟩ | ⟨h1, h2⟩ | ⟨h1, h2⟩
  · rw [h2]; exact hInv (h1 ▸ hr)
  · exact absurd hr (not_lt.mpr h1)
  · rw [h2]
    have hq : (0 : ℚ) ≤ (l : ℚ) / -(updateStats s l t).ratePerSecond :=
      div_nonneg (by exact_mod_cast hl) (le_of_lt (neg_pos.mpr h1))
    have hc : (0 : ℚ) ≤ ((ratTrunc ((l : ℚ) / -(updateStats s l t).ratePerSecond) : Int) : ℚ) := by
      exact_mod_cast ratTrunc_nonneg _ hq
    linarith

theorem foldl_eta_inv : ∀ (samples : List (Int × ℚ)) (s : ReplicationStats),
    (∀ p ∈ samples, 0 ≤ p.1 ∧ 0 < p.2) → EtaInv s →
    EtaInv (samples.foldl (fun a p => updateStats a p.1 p.2) s)
  | [], _, _, hs => hs
  | p :: rest, s, h, hs => by
    have hp := h p (List.mem_cons_self p rest)
    exact foldl_eta_inv rest (updateStats s p.1 p.2)
      (fun q hq => h q (List.mem_cons_of_mem p hq))
      (updateStats_eta_inv s p.1 p.2 hp.1 hp.2 hs)

theorem foldl_start_preserved : ∀ (samples : List (Int × ℚ)) (s : ReplicationStats),
    s.startTime ≠ 0 →
    (samples.foldl (fun a p => updateStats a p.1 p.2) s).startTime = s.startTime ∧
    (samples.foldl (fun a p => updateStats a p.1 p.2) s).startSecondsBehind =
      s.startSecondsBehind
  | [], _, _ => ⟨rfl, rfl⟩
  | p :: rest, s, h => by
    obtain ⟨h1, h2⟩ := updateStats_start_preserved s p.1 p.2 h
    simp only [List.foldl_cons]
    obtain ⟨h1', h2'⟩ :=
      foldl_start_preserved rest (updateStats s p.1 p.2) (by rw [h1]; exact h)
    exact ⟨by rw [h1', h1], by rw [h2', h2]⟩

theorem foldl_avg (l0 : Int) (t0 : ℚ) (ht0 : t0 ≠ 0) :
    ∀ (rest : List (Int × ℚ)) (r : Int × ℚ) (s : ReplicationStats),
      s.startTime = t0 → s.startSecondsBehind = l0 → t0 ≤ s.lastCheckTime →
      chainIncr s.lastCheckTime (r :: rest) = true →
      ((r :: rest).foldl (fun a p => updateStats a p.1 p.2) s).averageRatePerSecond =
        (((lastSample r rest).1 - l0 : Int) : ℚ) / ((lastSample r rest).2 - t0)
  | [], r, s, h1, h2, h3, h4 => by
    simp only [chainIncr, Bool.and_eq_true, decide_eq_true_eq] at h4
    have hlt : s.startTime < r.2 := by rw [h1]; exact lt_of_le_of_lt h3 h4.1
    simp only [List.foldl_cons, List.foldl_nil, lastSample]
    rw [updateStats_avg_formula s r.1 r.2 (by rw [h1]; exact ht0) hlt, h1, h2]
  | q :: rest', r, s, h1, h2, h3, h4 => by
    simp only [chainIncr, Bool.and_eq_true, decide_eq_true_eq] at h4
    obtain ⟨hs1, hs2⟩ := updateStats_start_preserved s r.1 r.2 (by rw [h1]; exact ht0)
    simp only [List.foldl_cons]
    have := foldl_avg l0 t0 ht0 rest' q (updateStats s r.1 r.2)
      (by rw [hs1, h1]) (by rw [hs2, h2])
      (by rw [updateStats_lastCheckTime]; exact le_of_lt (lt_of_le_of_lt h3 h4.1))
      (by rw [updateStats_lastCheckTime]
          simp only [chainIncr, Bool.and_eq_true, decide_eq_true_eq]
          exact h4.2)
    simpa only [List.foldl_cons, lastSample] using this

/-- One step of the pattern loop (main.go lines 326-335): the evaluator
returning none models regexp.MatchString reporting an error, which is
logged and skipped (continue); a match sets the error flag; a non-match
leaves the flag as it was. -/
def matchStep (re : String → String → Option Bool) (s : String) (hasError : Bool)
    (p : String) : Bool :=
  match re p s with
  | none => hasError
  | some true => true
  | some false => hasError

/-- The error-pattern check (main.go lines 324-337): an empty lastSQLError
is never tested against any pattern; otherwise every pattern in the list is
evaluated in order against it. -/
def matchLoop (re : String → String → Option Bool) (lastSQLError : String)
    (patterns : List String) : Bool :=
  if lastSQLError = "" then false
  else patterns.foldl (matchStep re lastSQLError) false

/-- Is the first list a prefix of the second (on character lists)? -/
def listPrefixOf : List Char → List Char → Bool
  | [], _ => true
  | _ :: _, [] => false
  | a :: as, b :: bs => a == b && listPrefixOf as bs

/-- Does the pattern occur contiguously anywhere in the string (character
lists)? -/
def listSubstrOccurs (pat : List Char) : List Char → Bool
  | [] => listPrefixOf pat []
  | c :: rest => listPrefixOf pat (c :: rest) || listSubstrOccurs pat rest

/-- Models Go regexp.MatchString for patterns containing no regex
metacharacters, such as the default pattern: an unanchored search for the
pattern as a literal substring, never returning an error. -/
def evalLiteral (p s : String) : Option Bool :=
  some (listSubstrOccurs p.toList s.toList)

/-- The configured error patterns (main.go lines 122-124). -/
def errorPatterns : List String := ["Coordinator stopped"]

/-- The decimal-digit run at the head of the list, if nonempty; helper for
the model of fmt.Sscanf with the verb for a decimal integer. -/
def parseDigits (cs : List Char) : Option Nat :=
  let ds := cs.takeWhile Char.isDigit
  if ds.isEmpty then none
  else some (ds.foldl (fun a c => a * 10 + (c.toNat - 48)) 0)

/-- Models fmt.Sscanf(strVal, "%d", &seconds) from main.go line 180: skip
leading spaces, accept an optional sign followed by at least one decimal
digit, and ignore any unconsumed trailing characters. -/
def parseIntSscanf (s : String) : Option Int :=
  match s.toList.dropWhile (fun c => c == ' ') with
  | '-' :: rest => (parseDigits rest).map (fun n => -(n : Int))
  | '+' :: rest => (parseDigits rest).map (fun n => (n : Int))
  | cs => (parseDigits cs).map (fun n => (n : Int))

/-- Handling of the Seconds_Behind_Source field for one cycle (main.go
lines 176-211): none models a NULL or absent column value; the strings
"NULL" and "" are skipped; a string Sscanf cannot parse leaves the stats
untouched; otherwise the parsed integer is fed through updateStats. -/
def processSecondsBehind (stats : ReplicationStats) (field : Option String) (now : ℚ) :
    ReplicationStats :=
  match field with
  | none => stats
  | some strVal =>
    if strVal ≠ "NULL" ∧ strVal ≠ "" then
      match parseIntSscanf strVal with
      | some seconds => updateStats stats seconds now
      | none => stats
    else stats

/-- How one call of showReplicaStatus obtains its data: the query fails
(also covering column and scan errors, which return identically), no row is
returned, or one row with the Last_SQL_Error and Seconds_Behind_Source
field values. -/
inductive FetchOutcome where
  | queryError
  | noRow
  | row (lastSQLError : String) (secondsBehind : Option String)
deriving DecidableEq, Repr

/-- The function showReplicaStatus (main.go lines 98-344) as a function of
the fetch outcome: on a query error or when no row is present it reports
false (no error detected) with the lag stats untouched; on a row it updates
the lag stats from Seconds_Behind_Source and reports whether a configured
pattern matched Last_SQL_Error. -/
def showReplicaStatus (stats : ReplicationStats) (re : String → String → Option Bool)
    (patterns : List String) (outcome : FetchOutcome) (now : ℚ) :
    ReplicationStats × Bool :=
  match outcome with
  | FetchOutcome.queryError => (stats, false)
  | FetchOutcome.noRow => (stats, false)
  | FetchOutcome.row lastSQLError sbs =>
      (processSecondsBehind stats sbs now, matchLoop re lastSQLError patterns)

/-- The externally visible actions of one iteration of the main loop. -/
inductive LoopAction where
  | poll
  | recover (ok : Bool)
  | sleep (seconds : Nat)
deriving DecidableEq, Repr

/-- One iteration of the monitoring loop (main.go lines 77-95) as the
sequence of actions it performs after polling: when an error pattern
matched, execute the recovery command once and continue straight to the
next poll; otherwise sleep 5 seconds. The flag ok records whether the
recovery invocation succeeded; it only changes what is logged, never the
control flow. -/
def cycleActions (hasError : Bool) (ok : Bool) : List LoopAction :=
  LoopAction.poll :: (if hasError then [LoopAction.recover ok] else [LoopAction.sleep 5])

/-- The action trace of successive loop iterations; each pair is one
cycle's (hasError, recovery-success) outcome. -/
def runTrace : List (Bool × Bool) → List LoopAction
  | [] => []
  | c :: rest => cycleActions c.1 c.2 ++ runTrace rest

/-- One full polling cycle: the stats update performed by showReplicaStatus
together with the loop actions its boolean result leads to. -/
def monitorCycle (stats : ReplicationStats) (re : String → String → Option Bool)
    (patterns : List String) (outcome : FetchOutcome) (now : ℚ) (ok : Bool) :
    ReplicationStats × List LoopAction :=
  ((showReplicaStatus stats re patterns outcome now).1,
    cycleActions (showReplicaStatus stats re patterns outcome now).2 ok)

theorem matchStep_none {re : String → String → Option Bool} {s p : String}
    (b : Bool) (h : re p s = none) : matchStep re s b p = b := by
  simp [matchStep, h]

theorem matchStep_true (re : String → String → Option Bool) (s p : String) :
    matchStep re s true p = true := by
  unfold matchStep
  cases h : re p s with
  | none => rfl
  | some b => cases b <;> rfl

theorem foldl_matchStep_true (re : String → String → Option Bool) (s : String) :
    ∀ ps : List String, ps.foldl (matchStep re s) true = true
  | [] => rfl
  | p :: ps => by
    rw [List.foldl_cons, matchStep_true]
    exact foldl_matchStep_true re s ps

/-- The lag state after a single sample of 100 seconds taken at time 1. -/
def oneSampleState : ReplicationStats :=
  { lastSecondsBehind := 100
    lastCheckTime := 1
    ratePerSecond := 0
    estimatedTime := 0
    startSecondsBehind := 100
    startTime := 1
    totalTimeElapsed := 0
    averageRatePerSecond := 0 }

/-- evalLiteral with an evaluation failure injected on one chosen pattern,
modelling a regex whose evaluation fails at runtime. -/
def evalLiteralFailOn (bad p s : String) : Option Bool :=
  if p = bad then none else evalLiteral p s

/-- C1 counterexample: run the samples (100, 1), (90, 11), (95, 21). The
third call leaves instantRate = 1/2 >= 0, yet the estimatedTime field of
the resulting lag state still holds 101, the ETA stored by the second
call: the field is not cleared, contradicting the claim that the
estimatedTime field is present only when the instant rate is negative. -/
theorem instantETA_not_cleared_cex :
    (runSamples [((100 : Int), (1 : ℚ)), (90, 11), (95, 21)]).ratePerSecond = 1 / 2 ∧
    (runSamples [((100 : Int), (1 : ℚ)), (90, 11), (95, 21)]).estimatedTime = 101 := by
  norm_num [runSamples, updateStats, initialStats, ratTrunc, List.foldl]

/-- C1 (amended): the stored estimatedTime field is never cleared; what
holds is that the *reported* instant ETA — governed by the display guard
of main.go lines 236-239, ratePerSecond < 0 and estimatedTime nonzero — is
present if and only if the instant rate is strictly negative, for every
sequence of update calls with nonnegative lags and positive times. -/
theorem instantETA_shown_iff_neg_rate (samples : List (Int × ℚ))
    (h : ∀ p ∈ samples, 0 ≤ p.1 ∧ 0 < p.2) :
    instantETAshown (runSamples samples) = true ↔
      (runSamples samples).ratePerSecond < 0 := by
  have hInv : EtaInv (runSamples samples) := by
    apply foldl_eta_inv samples initialStats h
    intro hr
    norm_num [initialStats] at hr
  constructor
  · intro hs
    by_contra hr
    simp [instantETAshown, hr] at hs
  · intro hr
    simp [instantETAshown, hr, ne_of_gt (hInv hr)]

/-- Witness for the amended C1 at the samples (100, 1), (90, 11). -/
theorem instantETA_shown_iff_neg_rate_witness :
    (∀ p ∈ [((100 : Int), (1 : ℚ)), (90, 11)], 0 ≤ p.1 ∧ 0 < p.2) ∧
    (instantETAshown (runSamples [((100 : Int), (1 : ℚ)), (90, 11)]) = true ↔
      (runSamples [((100 : Int), (1 : ℚ)), (90, 11)]).ratePerSecond < 0) :=
  ⟨by norm_num, instantETA_shown_iff_neg_rate _ (by norm_num)⟩

/-- C2: for every sample sequence whose first sample is at a positive time
and whose times are strictly increasing, after every sample beyond the
first the long-term average rate equals
(currentLag - firstLag) / (currentTime - firstTime). -/
theorem averageRate_eq_secant (l0 : Int) (t0 : ℚ) (r : Int × ℚ) (rest : List (Int × ℚ))
    (h0 : 0 < t0) (hchain : chainIncr t0 (r :: rest) = true) :
    (runSamples ((l0, t0) :: r :: rest)).averageRatePerSecond =
      (((lastSample r rest).1 - l0 : Int) : ℚ) / ((lastSample r rest).2 - t0) := by
  have hfirst := updateStats_first l0 t0
  show ((r :: rest).foldl (fun a p => updateStats a p.1 p.2)
      (updateStats initialStats l0 t0)).averageRatePerSecond = _
  refine foldl_avg l0 t0 (ne_of_gt h0) rest r (updateStats initialStats l0 t0) ?_ ?_ ?_ ?_
  · rw [hfirst]
  · rw [hfirst]
  · rw [hfirst]
  · exact hchain

/-- Witness for C2 at the samples (100, 1), (90, 11). -/
theorem averageRate_eq_secant_witness :
    (0 : ℚ) < 1 ∧ chainIncr 1 [((90 : Int), (11 : ℚ))] = true ∧
    (runSamples [((100 : Int), (1 : ℚ)), (90, 11)]).averageRatePerSecond =
      (((90 : Int) - 100 : Int) : ℚ) / ((11 : ℚ) - 1) :=
  ⟨by norm_num, by norm_num [chainIncr],
    averageRate_eq_secant 100 1 (90, 11) [] (by norm_num) (by norm_num [chainIncr])⟩

/-- C3: when the elapsed time since the previous sample is not strictly
positive, instantRate (and the stored ETA with it) keeps its prior value,
and when the elapsed time since the start anchor is zero, averageRate
keeps its prior value; the guarded definition performs no division in
either case. -/
theorem zero_elapsed_retains_rates (s : ReplicationStats) (seconds : Int) (now : ℚ) :
    (s.lastCheckTime ≠ 0 → now - s.lastCheckTime ≤ 0 →
      (updateStats s seconds now).ratePerSecond = s.ratePerSecond) ∧
    (now - (if s.startTime = 0 then now else s.startTime) = 0 →
      (updateStats s seconds now).averageRatePerSecond = s.averageRatePerSecond) := by
  constructor
  · intro _ h
    exact (updateStats_rate_retained s seconds now (not_lt.mpr h)).1
  · intro h
    apply updateStats_avg_retained s seconds now
    rw [h]
    exact lt_irrefl 0

/-- Witness for C3: a second call at the same time 1 as the first sample
leaves both rates unchanged. -/
theorem zero_elapsed_retains_rates_witness :
    (oneSampleState.lastCheckTime ≠ 0 ∧ (1 : ℚ) - oneSampleState.lastCheckTime ≤ 0 ∧
      (updateStats oneSampleState 50 1).ratePerSecond = oneSampleState.ratePerSecond) ∧
    ((1 : ℚ) - (if oneSampleState.startTime = 0 then (1 : ℚ) else oneSampleState.startTime) = 0 ∧
      (updateStats oneSampleState 50 1).averageRatePerSecond =
        oneSampleState.averageRatePerSecond) := by
  have h := zero_elapsed_retains_rates oneSampleState 50 1
  refine ⟨⟨?_, ?_, h.1 ?_ ?_⟩, ⟨?_, h.2 ?_⟩⟩ <;> norm_num [oneSampleState]

/-- C4: in every cycle whose pattern check matched, the recovery action
appears exactly once among the cycle's actions, no sleep occurs whether or
not the recovery invocation succeeded, and the trace goes straight from
the recovery to the next cycle's poll. -/
theorem matched_cycle_recovers_once_then_polls (ok : Bool) (rest : List (Bool × Bool)) :
    (cycleActions true ok).count (LoopAction.recover ok) = 1 ∧
    (∀ n, LoopAction.sleep n ∉ cycleActions true ok) ∧
    runTrace ((true, ok) :: rest) =
      LoopAction.poll :: LoopAction.recover ok :: runTrace rest := by
  refine ⟨?_, ?_, ?_⟩
  · simp [cycleActions]
  · intro n
    simp [cycleActions]
  · simp [runTrace, cycleActions]

/-- C5: a cycle whose fetch fails, or whose result set has no row, reports
no error and leaves the stats untouched, and an error-free cycle performs
no recovery and sleeps the 5-second interval. -/
theorem fetch_failure_error_free (stats : ReplicationStats)
    (re : String → String → Option Bool) (patterns : List String) (now : ℚ) (ok : Bool) :
    monitorCycle stats re patterns FetchOutcome.queryError now ok =
      (stats, [LoopAction.poll, LoopAction.sleep 5]) ∧
    monitorCycle stats re patterns FetchOutcome.noRow now ok =
      (stats, [LoopAction.poll, LoopAction.sleep 5]) ∧
    (∀ b, LoopAction.recover b ∉
      (monitorCycle stats re patterns FetchOutcome.queryError now ok).2) ∧
    (∀ b, LoopAction.recover b ∉
      (monitorCycle stats re patterns FetchOutcome.noRow now ok).2) := by
  refine ⟨rfl, rfl, ?_, ?_⟩ <;> intro b <;>
    simp [monitorCycle, showReplicaStatus, cycleActions]

/-- C6: the pattern check never matches an empty (or never-assigned)
Last_SQL_Error under any evaluator and pattern list, and the default
single-pattern list matches the string "Coordinator stopped unexpectedly"
as an unanchored substring-capable regular expression. -/
theorem matcher_empty_and_default :
    (∀ (re : String → String → Option Bool) (patterns : List String),
      matchLoop re "" patterns = false) ∧
    matchLoop evalLiteral "Coordinator stopped unexpectedly" errorPatterns = true := by
  constructor
  · intro re patterns
    simp [matchLoop]
  · rfl

/-- C7: startTime and startSecondsBehind are assigned on the first sample —
a call on which instantRate stays 0 and no instant ETA is produced — and
are never overwritten by any sequence of later update calls. -/
theorem start_anchor_set_once (l0 : Int) (t0 : ℚ) (rest : List (Int × ℚ)) (h0 : 0 < t0) :
    (updateStats initialStats l0 t0).startSecondsBehind = l0 ∧
    (updateStats initialStats l0 t0).startTime = t0 ∧
    (updateStats initialStats l0 t0).ratePerSecond = 0 ∧
    (updateStats initialStats l0 t0).estimatedTime = 0 ∧
    (runSamples ((l0, t0) :: rest)).startTime = t0 ∧
    (runSamples ((l0, t0) :: rest)).startSecondsBehind = l0 := by
  have hfirst := updateStats_first l0 t0
  have hne : (updateStats initialStats l0 t0).startTime ≠ 0 := by
    rw [hfirst]
    exact ne_of_gt h0
  obtain ⟨hp1, hp2⟩ := foldl_start_preserved rest (updateStats initialStats l0 t0) hne
  refine ⟨by rw [hfirst], by rw [hfirst], by rw [hfirst], by rw [hfirst], ?_, ?_⟩
  · show ((rest.foldl (fun a p => updateStats a p.1 p.2)
        (updateStats initialStats l0 t0))).startTime = t0
    rw [hp1, hfirst]
  · show ((rest.foldl (fun a p => updateStats a p.1 p.2)
        (updateStats initialStats l0 t0))).startSecondsBehind = l0
    rw [hp2, hfirst]

/-- Witness for C7 at first sample (100, 1) followed by (90, 11). -/
theorem start_anchor_set_once_witness :
    (0 : ℚ) < 1 ∧
    ((updateStats initialStats 100 1).startSecondsBehind = 100 ∧
      (updateStats initialStats 100 1).startTime = 1 ∧
      (updateStats initialStats 100 1).ratePerSecond = 0 ∧
      (updateStats initialStats 100 1).estimatedTime = 0 ∧
      (runSamples [((100 : Int), (1 : ℚ)), (90, 11)]).startTime = 1 ∧
      (runSamples [((100 : Int), (1 : ℚ)), (90, 11)]).startSecondsBehind = 100) :=
  ⟨by norm_num, start_anchor_set_once 100 1 [(90, 11)] (by norm_num)⟩

/-- C8: from a fresh state, samples 100 at a positive time t0 and 90 at
t0 + 10 give instantRate = -1 and a stored instant ETA of t0 + 100, that
is, now plus the sample divided by the negated instant rate. -/
theorem scenario_rate_and_eta (t0 : ℚ) (h0 : 0 < t0) :
    (updateStats (updateStats initialStats 100 t0) 90 (t0 + 10)).ratePerSecond = -1 ∧
    (updateStats (updateStats initialStats 100 t0) 90 (t0 + 10)).estimatedTime = t0 + 100 := by
  rw [updateStats_first 100 t0]
  have h1 : t0 ≠ 0 := ne_of_gt h0
  simp only [updateStats]
  norm_num [h1, ratTrunc]
  ring

/-- Witness for C8 at t0 = 1. -/
theorem scenario_rate_and_eta_witness :
    (0 : ℚ) < 1 ∧
    ((updateStats (updateStats initialStats 100 1) 90 (1 + 10)).ratePerSecond = -1 ∧
      (updateStats (updateStats initialStats 100 1) 90 (1 + 10)).estimatedTime = 1 + 100) :=
  ⟨by norm_num, scenario_rate_and_eta 1 (by norm_num)⟩

/-- C9: a pattern whose regex evaluation fails contributes a non-match —
removing it from the list does not change the result — and evaluation
continues with the following patterns, so a later matching pattern still
yields a matched cycle. -/
theorem pattern_failure_skipped (re : String → String → Option Bool) (s : String)
    (ps1 ps2 : List String) (p q : String)
    (hs : s ≠ "") (hp : re p s = none) :
    matchLoop re s (ps1 ++ p :: ps2) = matchLoop re s (ps1 ++ ps2) ∧
    (re q s = some true → matchLoop re s (ps1 ++ p :: q :: ps2) = true) := by
  constructor
  · simp only [matchLoop, if_neg hs, List.foldl_append, List.foldl_cons]
    rw [matchStep_none _ hp]
  · intro hq
    simp only [matchLoop, if_neg hs, List.foldl_append, List.foldl_cons]
    rw [matchStep_none _ hp]
    have hstep : matchStep re s (List.foldl (matchStep re s) false ps1) q = true := by
      simp [matchStep, hq]
    rw [hstep, foldl_matchStep_true]

/-- Witness for C9: with the evaluator failing on the middle pattern, the
error string still matches through the final pattern. -/
theorem pattern_failure_skipped_witness :
    ("Coordinator stopped now" ≠ "" ∧
      evalLiteralFailOn "[" "[" "Coordinator stopped now" = none ∧
      evalLiteralFailOn "[" "Coordinator" "Coordinator stopped now" = some true) ∧
    matchLoop (evalLiteralFailOn "[") "Coordinator stopped now"
        (["zzz"] ++ "[" :: "Coordinator" :: []) = true := by
  refine ⟨⟨by decide, by decide, by decide⟩, ?_⟩
  exact (pattern_failure_skipped (evalLiteralFailOn "[") "Coordinator stopped now"
    ["zzz"] [] "[" "Coordinator" (by decide) (by decide)).2 (by decide)

/-- C10: a cycle whose Seconds_Behind_Source value is absent or NULL, the
string "NULL", the empty string, or a string Sscanf cannot parse as an
integer leaves every field of the lag state unchanged. -/
theorem nonparseable_lag_frame (stats : ReplicationStats) (field : Option String) (now : ℚ)
    (h : field = none ∨ field = some "NULL" ∨ field = some "" ∨
      ∃ v, field = some v ∧ parseIntSscanf v = none) :
    processSecondsBehind stats field now = stats := by
  rcases h with h | h | h | ⟨v, hv, hp⟩
  · rw [h]
    rfl
  · rw [h]
    simp [processSecondsBehind]
  · rw [h]
    simp [processSecondsBehind]
  · rw [hv]
    simp only [processSecondsBehind]
    split_ifs with hcond
    · simp [hp]
    · rfl

/-- Witness for C10 on the unparseable value "abc". -/
theorem nonparseable_lag_frame_witness :
    parseIntSscanf "abc" = none ∧
    processSecondsBehind initialStats (some "abc") 5 = initialStats :=
  ⟨rfl, nonparseable_lag_frame initialStats (some "abc") 5
    (Or.inr (Or.inr (Or.inr ⟨"abc", rfl, rfl⟩)))⟩

end ReplicaMonitor
